import Mathlib

/-!
Shallow embedding of the graph/layout core of the Dialoga-con-Juan
repository (a React + d3 knowledge-map application) and proofs about it.

The embedding covers:
* the data model of `src/types.ts` (ConceptNode, ConceptLink, UserStats);
* the state-updating handlers of the App component
  (`handleExpandMap`, `handleUpdateScore`, `handleBranchEvolution`,
  `handleCompleteDrill`) from `src/unnamed/part_001`, and the older
  variant of `handleExpandMap` from `src/unnamed/part_002`;
* the error mapping of `expandConcept` in `src/services/geminiService.ts`;
* the timeline scale, collision/visual radii, relation color table and
  drag handlers of the MindMap component (`src/unnamed/part_004`,
  `src/components/MindMap.tsx`).

JavaScript numbers are modelled as `Int` (scores, xp, mastery, years) and
`Rat` (coordinates); optional/falsy fields as `Option`.
-/

namespace Dialoga

/-- The five relation strings of `RelationType` (src/types.ts line 1). -/
def relationTypeValues : List String :=
  ["CRITIQUES", "EXPANDS_UPON", "INFLUENCED_BY", "OPPOSES", "RELATES_TO"]

/-- Node categories (src/types.ts: `'root' | 'theory' | 'person' | 'concept'`). -/
inductive NodeType where
  | root
  | theory
  | person
  | concept
deriving DecidableEq, Repr

/-- `ConceptNode` of src/types.ts, restricted to the fields the graph and
layout logic reads.  `year` is `Option Int` because the runtime objects may
lack the field; `x`, `y` are the simulation-owned coordinates. -/
structure ConceptNode where
  id : String
  label : String
  type : NodeType
  description : String
  year : Option Int
  mastery : Int
  unlocked : Bool
  x : Option Rat
  y : Option Rat
deriving DecidableEq, Repr

/-- `ConceptLink` of src/types.ts.  The `relation` field is a plain string
at runtime (the TypeScript annotation is `RelationType`, but the code in
src/unnamed/part_002 commits the literal "relates to", so the embedding
keeps the runtime type). -/
structure ConceptLink where
  source : String
  target : String
  relation : String
deriving DecidableEq, Repr

/-- `UserStats` of src/types.ts. -/
structure UserStats where
  xp : Int
  level : Int
  debatesWon : Int
  conceptsMastered : Int
deriving DecidableEq, Repr

/-- `BranchSuggestion` of src/types.ts. -/
structure BranchSuggestion where
  label : String
  description : String
  type : NodeType
  associatedTheorist : String
  relation : String
deriving DecidableEq, Repr

/-- The graph-relevant state of the App component (src/unnamed/part_001):
`nodes`, `links`, `activeNode`, `stats`. -/
structure AppState where
  nodes : List ConceptNode
  links : List ConceptLink
  activeNode : Option ConceptNode
  stats : UserStats
deriving DecidableEq, Repr

/-- The `{ nodes, links }` pair returned by `expandConcept`. -/
structure ExpandResult where
  nodes : List ConceptNode
  links : List ConceptLink
deriving DecidableEq, Repr

/-- `expandConcept` (src/services/geminiService.ts lines 76-89) after the
network/parse step: on success it maps every returned node to one with
`mastery := 0, unlocked := true`; every thrown error is caught and mapped
to empty node and link lists. -/
def expandConcept (outcome : Except Unit ExpandResult) : ExpandResult :=
  match outcome with
  | Except.error _ => ⟨[], []⟩
  | Except.ok r =>
      ⟨r.nodes.map (fun n => { n with mastery := 0, unlocked := true }), r.links⟩

/-- `handleExpandMap` (src/unnamed/part_001 lines 54-88), as a pure state
transformer on the graph-relevant state, applied to the already-resolved
service result: when there is no active node nothing happens; when the
result has no nodes nothing happens; otherwise all returned nodes are
appended, the returned links (or, when the result has no links, fallback
`RELATES_TO` links from the active node to each new node) are appended,
and xp increases by 20. -/
def handleExpandMap (s : AppState) (r : ExpandResult) : AppState :=
  match s.activeNode with
  | none => s
  | some a =>
      if r.nodes.isEmpty then s
      else
        let connectedLinks :=
          if r.links.isEmpty then
            r.nodes.map (fun n => ConceptLink.mk a.id n.id "RELATES_TO")
          else r.links
        { s with
            nodes := s.nodes ++ r.nodes
            links := s.links ++ connectedLinks
            stats := { s.stats with xp := s.stats.xp + 20 } }

/-- `handleExpandMap` of the older App variant (src/unnamed/part_002 lines
46-83): it ignores the service links and instead commits one link
`(activeNode.id, n.id, "relates to")` per new node. -/
def handleExpandMapV2 (s : AppState) (r : ExpandResult) : AppState :=
  match s.activeNode with
  | none => s
  | some a =>
      if r.nodes.isEmpty then s
      else
        let directLinks :=
          r.nodes.map (fun n => ConceptLink.mk a.id n.id "relates to")
        { s with
            nodes := s.nodes ++ r.nodes
            links := s.links ++ directLinks
            stats := { s.stats with xp := s.stats.xp + 20 } }

/-- `handleUpdateScore` (src/unnamed/part_001 lines 90-110): a score of 7
or more raises xp by score*5 and debatesWon by 1, and, when an active node
with mastery below 100 exists, raises the mastery of every node with that
id by 25 capped at 100; a lower score raises xp by 5. -/
def handleUpdateScore (s : AppState) (score : Int) : AppState :=
  if 7 ≤ score then
    let stats1 := { s.stats with
        xp := s.stats.xp + score * 5
        debatesWon := s.stats.debatesWon + 1 }
    let nodes1 :=
      match s.activeNode with
      | some a =>
          if a.mastery < 100 then
            s.nodes.map (fun n =>
              if n.id = a.id then { n with mastery := min 100 (n.mastery + 25) }
              else n)
          else s.nodes
      | none => s.nodes
    { s with stats := stats1, nodes := nodes1 }
  else
    { s with stats := { s.stats with xp := s.stats.xp + 5 } }

/-- JavaScript `activeNode.year || 2000` (src/unnamed/part_001 line 126 and
src/unnamed/part_004 line 66): an absent year, or the falsy year 0, yields
the default 2000. -/
def jsYearOr2000 (y : Option Int) : Int :=
  match y with
  | none => 2000
  | some v => if v = 0 then 2000 else v

/-- JavaScript `activeNode.x ? activeNode.x + 50 : 0` (src/unnamed/part_001
lines 131-132). -/
def jsOffset50 (v : Option Rat) : Rat :=
  match v with
  | none => 0
  | some q => if q = 0 then 0 else q + 50

/-- `handleBranchEvolution` (src/unnamed/part_001 lines 113-147): with an
active node, builds a new node with id `evolved-` ++ the current timestamp,
mastery 0, year inherited via `activeNode.year || 2000`, appends it, appends
one link from the active node with the suggested relation, and adds 50 xp. -/
def handleBranchEvolution (now : Int) (s : AppState) (sug : BranchSuggestion) :
    AppState :=
  match s.activeNode with
  | none => s
  | some a =>
      let newId := "evolved-" ++ toString now
      let newNode : ConceptNode :=
        { id := newId
          label := sug.label
          type := sug.type
          description := sug.description
          year := some (jsYearOr2000 a.year)
          mastery := 0
          unlocked := true
          x := some (jsOffset50 a.x)
          y := some (jsOffset50 a.y) }
      let newLink : ConceptLink := ⟨a.id, newId, sug.relation⟩
      { s with
          nodes := s.nodes ++ [newNode]
          links := s.links ++ [newLink]
          stats := { s.stats with xp := s.stats.xp + 50 } }

/-- `handleCompleteDrill` (src/unnamed/part_001 lines 167-175): adds
avgScore*10 xp. -/
def handleCompleteDrill (s : AppState) (avg : Int) : AppState :=
  { s with stats := { s.stats with xp := s.stats.xp + avg * 10 } }

/-- `INITIAL_NODE` (src/unnamed/part_001 lines 11-24), restricted to the
embedded fields. -/
def initialNode : ConceptNode :=
  { id := "root"
    label := "Sociology"
    type := NodeType.root
    description := "The systematic study of society and social interaction."
    year := some 1838
    mastery := 100
    unlocked := true
    x := some 0
    y := some 0 }

/-- `INITIAL_STATS` (src/unnamed/part_001 lines 26-31). -/
def initialStats : UserStats :=
  { xp := 150, level := 1, debatesWon := 0, conceptsMastered := 1 }

/-- The App state right after the user clicks the root node: the initial
graph with the root as active node. -/
def exState : AppState :=
  { nodes := [initialNode]
    links := []
    activeNode := some initialNode
    stats := initialStats }

/-- A service node reusing the already-present id "root". -/
def exDupRootNode : ConceptNode :=
  { id := "root"
    label := "Sociology (again)"
    type := NodeType.concept
    description := "A duplicate concept generated by the service."
    year := some 1900
    mastery := 0
    unlocked := true
    x := none
    y := none }

/-- A fresh service node with id "a". -/
def exNodeA : ConceptNode :=
  { id := "a"
    label := "Alienation"
    type := NodeType.concept
    description := "Estrangement of people from aspects of their work."
    year := some 1844
    mastery := 0
    unlocked := true
    x := none
    y := none }

/-- A service link whose target id "ghost" does not exist in the graph. -/
def exGhostLink : ConceptLink := ⟨"a", "ghost", "RELATES_TO"⟩

/-! ### Timeline scale and layout configuration (src/unnamed/part_004) -/

/-- The timeline scale (src/unnamed/part_004 lines 53-55):
`d3.scaleLinear().domain([1800, 2025]).range([-width/2 + 50, width/2 - 50])`.
A d3 linear scale without `.clamp(true)` is the affine interpolation of the
range endpoints at the normalized position of the input in the domain,
extrapolating linearly outside the domain. -/
def timeScale (w year : Rat) : Rat :=
  (-w / 2 + 50) + (year - 1800) * (((w / 2 - 50) - (-w / 2 + 50)) / (2025 - 1800))

/-- The x-target of the timeline `forceX` (src/unnamed/part_004 line 66):
`timeScale(d.year || 2000)`. -/
def timelineTargetX (w : Rat) (n : ConceptNode) : Rat :=
  timeScale w (jsYearOr2000 n.year)

/-- The per-node radius of the collision force (src/unnamed/part_004
line 61): `d3.forceCollide().radius(70)` — the constant 70 for every node,
whatever its category. -/
def collideRadius (_ : ConceptNode) : Rat := 70

/-- The rendered circle radius (src/unnamed/part_004 line 157):
`d.type === 'root' ? 40 : 30`. -/
def visualRadius (n : ConceptNode) : Rat :=
  if n.type = NodeType.root then 40 else 30

/-- `RELATION_COLORS` (src/unnamed/part_004 lines 13-19) as a partial map:
`none` models a missing key of the record. -/
def relationColors (rel : String) : Option String :=
  if rel = "CRITIQUES" then some "#ef4444"
  else if rel = "OPPOSES" then some "#f97316"
  else if rel = "EXPANDS_UPON" then some "#10b981"
  else if rel = "INFLUENCED_BY" then some "#a855f7"
  else if rel = "RELATES_TO" then some "#475569"
  else none

/-- The stroke attributes and relation value the renderer derives from a
laid-out link (src/unnamed/part_004 lines 119-126).  d3 forceLink rewrites
only the `source`/`target` endpoints of the link objects; the renderer reads
`d.relation` directly off the committed link record. -/
structure RenderedLink where
  stroke : String
  strokeWidth : Rat
  markerEnd : String
  relation : String
deriving DecidableEq, Repr

/-- The link rendering (src/unnamed/part_004 lines 119-126):
stroke is `RELATION_COLORS[d.relation] || '#475569'`, stroke width is 1.5
for `RELATES_TO` and 2.5 otherwise, the arrow marker is keyed by the
relation, and the relation value itself is carried unchanged. -/
def renderLink (l : ConceptLink) : RenderedLink :=
  { stroke := (relationColors l.relation).getD "#475569"
    strokeWidth := if l.relation = "RELATES_TO" then 3 / 2 else 5 / 2
    markerEnd := "url(#arrow-" ++ l.relation ++ ")"
    relation := l.relation }

/-! ### Simulation control, drag handlers and tick (src/unnamed/part_004) -/

/-- A simulation particle: position, velocity and the optional pin
(`fx`/`fy`) of a d3 simulation node. -/
structure SimNode where
  x : Rat
  y : Rat
  vx : Rat
  vy : Rat
  fx : Option Rat
  fy : Option Rat
deriving DecidableEq, Repr

/-- The control state of the force simulation: the alpha target and whether
the internal stepper is running. -/
structure SimControl where
  alphaTarget : Rat
  running : Bool
deriving DecidableEq, Repr

/-- `dragstarted` (src/unnamed/part_004 lines 217-221): when no other
gesture is active, `simulation.alphaTarget(0.3).restart()` reheats and
restarts the stepper; the node is pinned at its current position
(`d.fx = d.x; d.fy = d.y`). -/
def dragStarted (active : Bool) (sim : SimControl) (d : SimNode) :
    SimControl × SimNode :=
  (if active then sim else { alphaTarget := 3 / 10, running := true },
   { d with fx := some d.x, fy := some d.y })

/-- `dragged` (src/unnamed/part_004 lines 223-227): the pin tracks the
pointer (`d.fx = event.x; d.fy = event.y`). -/
def dragged (px py : Rat) (d : SimNode) : SimNode :=
  { d with fx := some px, fy := some py }

/-- `dragended` (src/unnamed/part_004 lines 229-233): when no other gesture
remains active the alpha target returns to 0, and the pin is cleared
(`d.fx = null; d.fy = null`). -/
def dragEnded (active : Bool) (sim : SimControl) (d : SimNode) :
    SimControl × SimNode :=
  (if active then sim else { sim with alphaTarget := 0 },
   { d with fx := none, fy := none })

/-- Modelled from the spec: the per-tick position update of the force
engine, which is supplied by the external d3-force dependency (not under
src/).  Forces contribute a velocity change (`dvx`, `dvy`); velocities are
damped by a friction multiplier `k`; a pinned axis (`fx`/`fy` set) is
excluded from force-driven updates — the position is held at the pinned
value and the velocity on that axis is zeroed. -/
def tickNode (k dvx dvy : Rat) (d : SimNode) : SimNode :=
  { x := match d.fx with
         | some c => c
         | none => d.x + (d.vx + dvx) * k
    vx := match d.fx with
          | some _ => 0
          | none => (d.vx + dvx) * k
    y := match d.fy with
         | some c => c
         | none => d.y + (d.vy + dvy) * k
    vy := match d.fy with
          | some _ => 0
          | none => (d.vy + dvy) * k
    fx := d.fx
    fy := d.fy }

/-! ### Teardown and in-flight mutations (src/unnamed/part_004 lines
235-238 and src/unnamed/part_001 lines 54-88) -/

/-- `simulation.stop()` in the effect cleanup (src/unnamed/part_004 lines
235-238): the internal stepper is halted. -/
def stopSim (sim : SimControl) : SimControl := { sim with running := false }

/-- Modelled from the spec: the animation loop delivers a tick only while
the simulation stepper is running (the d3-force timer is an external
dependency not under src/); a stopped simulation delivers none. -/
def fireTick (sim : SimControl) : Option SimControl :=
  if sim.running then some sim else none

/-- The App state together with whether the map view is still mounted:
the MindMap effect cleanup has not yet run. -/
structure ViewState where
  app : AppState
  mapViewAlive : Bool
deriving DecidableEq, Repr

/-- View teardown: the MindMap effect cleanup runs (the component is
unmounted or its dependencies changed).  Only the view flag changes; the
graph state lives in the App component. -/
def teardownView (v : ViewState) : ViewState := { v with mapViewAlive := false }

/-- The continuation of `handleExpandMap` after its `await` resolves
(src/unnamed/part_001 lines 61-84): the commit runs against the App state
without consulting any mounted/teardown flag — there is no cancellation
guard in the code. -/
def resumeExpand (v : ViewState) (r : ExpandResult) : ViewState :=
  { v with app := handleExpandMap v.app r }

/-! ### Operations for the xp/mastery invariant (C10) -/

/-- The four state-updating operations of the App component.  An expansion
carries the raw service outcome, which flows through `expandConcept` first
(so its nodes get `mastery := 0, unlocked := true` or the whole result is
emptied by the catch). -/
inductive Op where
  | expand (outcome : Except Unit ExpandResult)
  | updateScore (score : Int)
  | branchEvolve (now : Int) (sug : BranchSuggestion)
  | completeDrill (avg : Int)

/-- Applying one operation to the App state, each by its handler. -/
def applyOp (s : AppState) : Op → AppState
  | Op.expand outcome => handleExpandMap s (expandConcept outcome)
  | Op.updateScore score => handleUpdateScore s score
  | Op.branchEvolve now sug => handleBranchEvolution now s sug
  | Op.completeDrill avg => handleCompleteDrill s avg

/-- The score inputs of an operation are non-negative. -/
def opScoreNonneg : Op → Prop
  | Op.updateScore score => 0 ≤ score
  | Op.completeDrill avg => 0 ≤ avg
  | _ => True

/-- Every node's mastery lies in [0, 100]. -/
def masteryInv (ns : List ConceptNode) : Prop :=
  ∀ n ∈ ns, 0 ≤ n.mastery ∧ n.mastery ≤ 100

/-- A node whose `year` field is absent. -/
def exYearlessNode : ConceptNode :=
  { id := "structure"
    label := "Social Structure"
    type := NodeType.concept
    description := "Patterned social arrangements."
    year := none
    mastery := 0
    unlocked := true
    x := none
    y := none }

/-- A concrete simulation node pinned at (5, 6). -/
def exSimNode : SimNode :=
  { x := 1, y := 2, vx := 3, vy := 4, fx := some 5, fy := some 6 }

/-- The initial view state: the initial App state with the map view
mounted. -/
def exView : ViewState := { app := exState, mapViewAlive := true }

/-! ## Helper lemmas -/

theorem masteryInv_append {xs ys : List ConceptNode}
    (hx : masteryInv xs) (hy : masteryInv ys) : masteryInv (xs ++ ys) := by
  intro n hn
  rcases List.mem_append.mp hn with h | h
  · exact hx n h
  · exact hy n h

theorem masteryInv_expandConcept (outcome : Except Unit ExpandResult) :
    masteryInv (expandConcept outcome).nodes := by
  cases outcome with
  | error e => intro n hn; simp [expandConcept] at hn
  | ok r =>
      intro n hn
      simp only [expandConcept, List.mem_map] at hn
      obtain ⟨m, _, rfl⟩ := hn
      exact ⟨le_refl 0, by norm_num⟩

theorem timeScale_lt_of_lt {w a b : Rat} (hw : 100 < w) (hab : a < b) :
    timeScale w a < timeScale w b := by
  unfold timeScale
  have hd : (0 : Rat) < ((w / 2 - 50) - (-w / 2 + 50)) / (2025 - 1800) := by
    apply div_pos <;> linarith
  have := mul_lt_mul_of_pos_right (show a - 1800 < b - 1800 by linarith) hd
  linarith

/-! ## Claims -/

/-- C1, counterexample: starting from the initial graph with the root node
active, an expansion result whose node reuses the existing id "root" is not
rejected — after the commit the node set carries the id "root" twice, so
the node-id list is no longer duplicate-free. -/
theorem c1_duplicate_id_admitted_counterexample :
    ((handleExpandMap exState
        (expandConcept (Except.ok ⟨[exDupRootNode], []⟩))).nodes.map
          ConceptNode.id) = ["root", "root"] ∧
    ¬ ((handleExpandMap exState
        (expandConcept (Except.ok ⟨[exDupRootNode], []⟩))).nodes.map
          ConceptNode.id).Nodup := by
  constructor
  · rfl
  · decide

/-- C1, amended: node insertions are appended unconditionally — neither
`handleExpandMap` nor `handleBranchEvolution` checks the incoming id
against the current node set, so a commit whose id already exists yields
two nodes with the same id; no rejection or warning path exists in the
code (duplicate avoidance is only requested from the generation service
through its prompt). -/
theorem c1_insertion_appends_unconditionally :
    ∀ (s : AppState) (a : ConceptNode) (r : ExpandResult) (now : Int)
      (sug : BranchSuggestion),
      s.activeNode = some a →
      (r.nodes ≠ [] → (handleExpandMap s r).nodes = s.nodes ++ r.nodes) ∧
      (handleBranchEvolution now s sug).nodes.map ConceptNode.id =
        s.nodes.map ConceptNode.id ++ ["evolved-" ++ toString now] := by
  intro s a r now sug ha
  constructor
  · intro hr
    simp [handleExpandMap, ha, List.isEmpty_iff, hr]
  · simp [handleBranchEvolution, ha]

/-- C1 witness. -/
theorem c1_insertion_appends_unconditionally_witness :
    (handleExpandMap exState ⟨[exNodeA], []⟩).nodes =
      exState.nodes ++ [exNodeA] ∧
    (handleBranchEvolution 17 exState
        ⟨"Anomie", "Normlessness.", NodeType.concept, "Durkheim",
          "EXPANDS_UPON"⟩).nodes.map ConceptNode.id =
      exState.nodes.map ConceptNode.id ++ ["evolved-" ++ toString (17 : Int)] := by
  have h := c1_insertion_appends_unconditionally exState initialNode
    ⟨[exNodeA], []⟩ 17
    ⟨"Anomie", "Normlessness.", NodeType.concept, "Durkheim", "EXPANDS_UPON"⟩
    rfl
  exact ⟨h.1 (by decide), h.2⟩

/-- C2, counterexample: an expansion result carrying a link whose target id
"ghost" matches no node is committed verbatim — the link appears in the
committed link sequence while "ghost" is absent from the node-id set, so
the committed graph holds a link with a dangling endpoint. -/
theorem c2_dangling_link_committed_counterexample :
    exGhostLink ∈ (handleExpandMap exState
        (expandConcept (Except.ok ⟨[exNodeA], [exGhostLink]⟩))).links ∧
    ¬ "ghost" ∈ (handleExpandMap exState
        (expandConcept (Except.ok ⟨[exNodeA], [exGhostLink]⟩))).nodes.map
          ConceptNode.id := by
  constructor
  · decide
  · decide

/-- C2, amended: links are appended without any endpoint validation — when
the expansion result has nodes and links, every result link is committed
verbatim after the existing links (and when the result has no links, a
fallback `RELATES_TO` link from the active node to each new node is
committed instead); a link with an unknown endpoint is therefore committed,
not dropped. -/
theorem c2_links_appended_unvalidated :
    ∀ (s : AppState) (a : ConceptNode) (r : ExpandResult),
      s.activeNode = some a → r.nodes ≠ [] → r.links ≠ [] →
      (handleExpandMap s r).links = s.links ++ r.links := by
  intro s a r ha hn hl
  simp [handleExpandMap, ha, List.isEmpty_iff, hn, hl]

/-- C2 witness. -/
theorem c2_links_appended_unvalidated_witness :
    (handleExpandMap exState ⟨[exNodeA], [exGhostLink]⟩).links =
      exState.links ++ [exGhostLink] := by
  exact c2_links_appended_unvalidated exState initialNode
    ⟨[exNodeA], [exGhostLink]⟩ rfl (by decide) (by decide)

/-- C3, counterexample: the timeline scale is not clamped at the domain
edges — the out-of-range year 1700 maps strictly below the left edge of
the range (the image of 1800) at viewport width 800, instead of being
clamped to it. -/
theorem c3_not_clamped_counterexample :
    timeScale 800 1700 < -800 / 2 + 50 ∧
    timeScale 800 1700 ≠ timeScale 800 1800 := by
  constructor
  · norm_num [timeScale]
  · norm_num [timeScale]

/-- C3, amended: the year-to-x mapping is the unclamped linear
interpolation of [1800, 2025] onto [-w/2 + 50, w/2 - 50]; it is monotonic
for every viewport width of at least 100 (out-of-range years extrapolate
beyond the range edges rather than clamp), so year(a) < year(b) implies
x-target(a) ≤ x-target(b). -/
theorem c3_timeScale_monotone :
    ∀ (w a b : Rat), 100 ≤ w → a < b → timeScale w a ≤ timeScale w b := by
  intro w a b hw hab
  unfold timeScale
  have hd : (0 : Rat) ≤ ((w / 2 - 50) - (-w / 2 + 50)) / (2025 - 1800) := by
    apply div_nonneg <;> linarith
  have := mul_le_mul_of_nonneg_right (show a - 1800 ≤ b - 1800 by linarith) hd
  linarith

/-- C3 witness. -/
theorem c3_timeScale_monotone_witness :
    timeScale 800 1867 ≤ timeScale 800 1905 :=
  c3_timeScale_monotone 800 1867 1905 (by norm_num) (by norm_num)

/-- C4, counterexample: a node with no `year` is assigned the x-target of
the fallback year 2000, which at viewport width 800 lies strictly inside
the domain image — strictly above the left edge (image of 1800) and
strictly below the right edge (image of 2025) — not at the right edge. -/
theorem c4_fallback_inside_domain_counterexample :
    timelineTargetX 800 exYearlessNode = timeScale 800 2000 ∧
    timeScale 800 1800 < timelineTargetX 800 exYearlessNode ∧
    timelineTargetX 800 exYearlessNode < timeScale 800 2025 := by
  refine ⟨rfl, ?_, ?_⟩
  · norm_num [timelineTargetX, jsYearOr2000, exYearlessNode, timeScale]
  · norm_num [timelineTargetX, jsYearOr2000, exYearlessNode, timeScale]

/-- C4, amended: a node whose `year` is absent (or 0, which JavaScript
treats as falsy) is projected at the image of the fallback year 2000, a
point strictly inside the domain — strictly between the images of 1800 and
2025 — for every viewport width above 100; the fallback is not at the
domain's right edge. -/
theorem c4_missing_year_fallback_2000 :
    ∀ (w : Rat) (n : ConceptNode), 100 < w → n.year = none →
      timelineTargetX w n = timeScale w 2000 ∧
      timeScale w 1800 < timelineTargetX w n ∧
      timelineTargetX w n < timeScale w 2025 := by
  intro w n hw hy
  have ht : timelineTargetX w n = timeScale w 2000 := by
    simp [timelineTargetX, jsYearOr2000, hy]
  refine ⟨ht, ?_, ?_⟩
  · rw [ht]; exact timeScale_lt_of_lt hw (by norm_num)
  · rw [ht]; exact timeScale_lt_of_lt hw (by norm_num)

/-- C4 witness. -/
theorem c4_missing_year_fallback_2000_witness :
    timelineTargetX 800 exYearlessNode = timeScale 800 2000 ∧
    timeScale 800 1800 < timelineTargetX 800 exYearlessNode ∧
    timelineTargetX 800 exYearlessNode < timeScale 800 2025 :=
  c4_missing_year_fallback_2000 800 exYearlessNode (by norm_num) rfl

/-- C5, counterexample: the collision force is configured with the constant
radius 70 for every node — the root node and a concept node get the same
collision radius even though their visual radii differ (40 vs 30), and the
pairwise collision separation 140 is not the sum 70 of their visual
radii. -/
theorem c5_uniform_radius_counterexample :
    collideRadius initialNode = collideRadius exNodeA ∧
    visualRadius initialNode ≠ visualRadius exNodeA ∧
    collideRadius initialNode + collideRadius exNodeA = 140 ∧
    visualRadius initialNode + visualRadius exNodeA = 70 ∧
    (140 : Rat) ≠ 70 := by
  have h1 : visualRadius initialNode = 40 := by simp [visualRadius, initialNode]
  have h2 : visualRadius exNodeA = 30 := by simp [visualRadius, exNodeA]
  refine ⟨rfl, ?_, by norm_num [collideRadius], ?_, by norm_num⟩
  · rw [h1, h2]; norm_num
  · rw [h1, h2]; norm_num

/-- C5, amended: the collision force uses the uniform per-node radius 70
regardless of category, so the separation it targets for every pair of
nodes is 140; the category-dependent visual radii (40 for root, 30
otherwise) are strictly smaller and do not parameterize the collision
force. -/
theorem c5_collision_radius_uniform_70 :
    ∀ (a b : ConceptNode),
      collideRadius a + collideRadius b = 140 ∧
      visualRadius a + visualRadius b < 140 := by
  intro a b
  constructor
  · norm_num [collideRadius]
  · unfold visualRadius
    split <;> split <;> norm_num

/-- C6: at drag start the node is pinned at its current position and (when
no other gesture is active) the simulation is reheated to alpha target 0.3
with its stepper restarted; every drag move re-pins the node at the pointer
position; drag end clears both pins; and while a pin is set, the pinned
coordinate survives every tick unchanged whatever velocity change the
forces contribute. -/
theorem c6_drag_pin_lifecycle :
    ∀ (active : Bool) (sim : SimControl) (d : SimNode)
      (px py k dvx dvy c cy : Rat),
      ((dragStarted active sim d).2.fx = some d.x ∧
        (dragStarted active sim d).2.fy = some d.y) ∧
      (active = false →
        (dragStarted active sim d).1.alphaTarget = 3 / 10 ∧
        (dragStarted active sim d).1.running = true) ∧
      ((dragged px py d).fx = some px ∧ (dragged px py d).fy = some py) ∧
      ((dragEnded active sim d).2.fx = none ∧
        (dragEnded active sim d).2.fy = none) ∧
      (d.fx = some c →
        (tickNode k dvx dvy d).x = c ∧ (tickNode k dvx dvy d).fx = some c) ∧
      (d.fy = some cy →
        (tickNode k dvx dvy d).y = cy ∧ (tickNode k dvx dvy d).fy = some cy) := by
  intro active sim d px py k dvx dvy c cy
  refine ⟨⟨rfl, rfl⟩, ?_, ⟨rfl, rfl⟩, ⟨rfl, rfl⟩, ?_, ?_⟩
  · intro h; subst h; exact ⟨rfl, rfl⟩
  · intro h; simp [tickNode, h]
  · intro h; simp [tickNode, h]

/-- C6 witness. -/
theorem c6_drag_pin_lifecycle_witness :
    (dragStarted false ⟨0, false⟩ exSimNode).1.alphaTarget = 3 / 10 ∧
    (dragStarted false ⟨0, false⟩ exSimNode).1.running = true ∧
    (tickNode (3 / 5) 1 1 exSimNode).x = 5 ∧
    (tickNode (3 / 5) 1 1 exSimNode).y = 6 := by
  have h := c6_drag_pin_lifecycle false ⟨0, false⟩ exSimNode 7 8 (3 / 5) 1 1 5 6
  exact ⟨(h.2.1 rfl).1, (h.2.1 rfl).2, (h.2.2.2.2.1 rfl).1,
    (h.2.2.2.2.2 rfl).1⟩

/-- C7, counterexample: the older expand path commits the literal relation
"relates to", which is not one of the five `RelationType` values and has no
entry in the 5-entry color table — the renderer falls back to the default
color instead of mapping it through the table. -/
theorem c7_nonenum_relation_counterexample :
    ConceptLink.mk "root" "a" "relates to" ∈
      (handleExpandMapV2 exState
        (expandConcept (Except.ok ⟨[exNodeA], []⟩))).links ∧
    relationColors "relates to" = none ∧
    ¬ "relates to" ∈ relationTypeValues := by
  refine ⟨by decide, rfl, by decide⟩

/-- C7, amended: the renderer exposes every laid-out link's `relation`
value unchanged from the committed value, and every relation that is one of
the five `RelationType` values does map through the fixed 5-entry
color table; however, committed relations are not always among the five —
one expand path commits the literal "relates to", which takes the fallback
color instead. -/
theorem c7_relation_exposed_unchanged :
    ∀ (l : ConceptLink),
      (renderLink l).relation = l.relation ∧
      (l.relation ∈ relationTypeValues →
        (relationColors l.relation).isSome = true) := by
  intro l
  constructor
  · rfl
  · intro h
    simp only [relationTypeValues, List.mem_cons, List.not_mem_nil,
      or_false] at h
    rcases h with h | h | h | h | h <;> simp [relationColors, h]

/-- C7 witness. -/
theorem c7_relation_exposed_unchanged_witness :
    (renderLink ⟨"root", "a", "CRITIQUES"⟩).relation = "CRITIQUES" ∧
    (relationColors "CRITIQUES").isSome = true := by
  have h := c7_relation_exposed_unchanged ⟨"root", "a", "CRITIQUES"⟩
  exact ⟨h.1, h.2 (by decide)⟩

/-- C8, counterexample: after the map view is torn down, an expansion still
in flight is committed when it resolves — the node set grows from the
pre-teardown state instead of the mutation being discarded. -/
theorem c8_inflight_commit_after_teardown_counterexample :
    (teardownView exView).mapViewAlive = false ∧
    (resumeExpand (teardownView exView)
        (expandConcept (Except.ok ⟨[exNodeA], []⟩))).app.nodes ≠
      (teardownView exView).app.nodes := by
  constructor
  · rfl
  · decide

/-- C8, amended: the effect cleanup stops the simulation stepper, after
which no further tick is delivered; but an in-flight expansion is not
cancelled — its commit after teardown is exactly the ordinary expansion
commit on the App state, so the mutation is applied, not discarded. -/
theorem c8_stop_halts_ticks_commit_survives :
    ∀ (sim : SimControl) (v : ViewState) (r : ExpandResult),
      fireTick (stopSim sim) = none ∧
      resumeExpand (teardownView v) r =
        { app := handleExpandMap v.app r, mapViewAlive := false } := by
  intro sim v r
  constructor
  · simp [fireTick, stopSim]
  · rfl

/-- C9: every thrown service error is mapped to the empty expansion result,
and an expansion result with no nodes leaves the App state — node set,
link sequence and stats (hence xp) — completely unchanged. -/
theorem c9_failed_expansion_is_noop :
    ∀ (e : Unit) (s : AppState) (r : ExpandResult),
      expandConcept (Except.error e) = ⟨[], []⟩ ∧
      (r.nodes = [] → handleExpandMap s r = s) := by
  intro e s r
  constructor
  · rfl
  · intro h
    cases hs : s.activeNode <;> simp [handleExpandMap, hs, h]

/-- C9 witness. -/
theorem c9_failed_expansion_is_noop_witness :
    expandConcept (Except.error ()) = ⟨[], []⟩ ∧
    handleExpandMap exState ⟨[], []⟩ = exState := by
  have h := c9_failed_expansion_is_noop () exState ⟨[], []⟩
  exact ⟨h.1, h.2 rfl⟩

/-- C10: for every state-updating operation (expansion, debate-turn
scoring, branch evolution, drill completion) with non-negative score
inputs, xp never decreases, and the invariant that every node's mastery
lies in [0, 100] is preserved. -/
theorem c10_xp_monotone_mastery_bounded :
    ∀ (s : AppState) (op : Op), opScoreNonneg op →
      s.stats.xp ≤ (applyOp s op).stats.xp ∧
      (masteryInv s.nodes → masteryInv (applyOp s op).nodes) := by
  intro s op hop
  cases op with
  | expand outcome =>
      constructor
      · cases hs : s.activeNode with
        | none => simp [applyOp, handleExpandMap, hs]
        | some a =>
            by_cases he : (expandConcept outcome).nodes.isEmpty <;>
              simp [applyOp, handleExpandMap, hs, he]
      · intro hinv
        cases hs : s.activeNode with
        | none => simpa [applyOp, handleExpandMap, hs] using hinv
        | some a =>
            by_cases he : (expandConcept outcome).nodes.isEmpty
            · simpa [applyOp, handleExpandMap, hs, he] using hinv
            · simp only [applyOp, handleExpandMap, hs, he, if_neg]
              exact masteryInv_append hinv (masteryInv_expandConcept outcome)
  | updateScore score =>
      constructor
      · by_cases h7 : 7 ≤ score
        · have : 0 ≤ score * 5 := by positivity
          simp [applyOp, handleUpdateScore, h7]
          linarith
        · simp [applyOp, handleUpdateScore, h7]
      · intro hinv
        by_cases h7 : 7 ≤ score
        · cases hs : s.activeNode with
          | none => simpa [applyOp, handleUpdateScore, h7, hs] using hinv
          | some a =>
              by_cases hm : a.mastery < 100
              · simp only [applyOp, handleUpdateScore, h7, if_pos, hs, hm]
                intro n hn
                simp only [List.mem_map] at hn
                obtain ⟨m, hm1, rfl⟩ := hn
                by_cases hid : m.id = a.id
                · have := hinv m hm1
                  simp only [hid, if_pos]
                  omega
                · simp only [hid, if_neg, not_false_iff]
                  exact hinv m hm1
              · simpa [applyOp, handleUpdateScore, h7, hs, hm] using hinv
        · simpa [applyOp, handleUpdateScore, h7] using hinv
  | branchEvolve now sug =>
      constructor
      · cases hs : s.activeNode <;>
          simp [applyOp, handleBranchEvolution, hs]
      · intro hinv
        cases hs : s.activeNode with
        | none => simpa [applyOp, handleBranchEvolution, hs] using hinv
        | some a =>
            simp only [applyOp, handleBranchEvolution, hs]
            apply masteryInv_append hinv
            intro n hn
            simp only [List.mem_singleton] at hn
            subst hn
            exact ⟨le_refl 0, by norm_num⟩
  | completeDrill avg =>
      constructor
      · have : 0 ≤ avg * 10 := by
          have h0 : (0 : Int) ≤ avg := hop
          positivity
        simp [applyOp, handleCompleteDrill]
        linarith
      · intro hinv
        simpa [applyOp, handleCompleteDrill] using hinv

/-- C10 witness. -/
theorem c10_xp_monotone_mastery_bounded_witness :
    exState.stats.xp ≤ (applyOp exState (Op.completeDrill 3)).stats.xp ∧
    (masteryInv exState.nodes →
      masteryInv (applyOp exState (Op.completeDrill 3)).nodes) :=
  c10_xp_monotone_mastery_bounded exState (Op.completeDrill 3)
    (by norm_num [opScoreNonneg])

end Dialoga
